import Mathlib

/-!
Shallow embedding of the Warbler flask application (src/app.py).

Stores (users, messages, follows, likes) are modelled as lists, mirroring the
relational tables; a request session is `Option Nat` (the value of
`session[CURR_USER_KEY]`, absent when logged out).  Each route handler of
app.py is translated to a Lean function on the store and session.  Query
results follow the list order of the table, `filter(...).first()` takes the
first matching element, and `order_by(timestamp.desc())` is insertion sort on
the relation `msgGe`.
-/

namespace Warbler

/-- A user record (models.User): id, username, email, hashed password and
profile fields.  The hash is modelled as the password string itself. -/
structure User where
  id : Nat
  username : String
  email : String
  password : String
  image_url : String
  header_image_url : String
  bio : String
  location : String
  deriving DecidableEq

/-- A message record (models.Message): id, text, creation timestamp and the
owning user's id. -/
structure Message where
  id : Nat
  text : String
  timestamp : Nat
  user_id : Nat
  deriving DecidableEq

/-- A like edge (models.Likes): the liking user's id and the liked message's
id. -/
structure Like where
  user_id : Nat
  message_id : Nat
  deriving DecidableEq

/-- The persistent store: the four tables.  `follows` holds
(follower id, followee id) pairs. -/
structure Store where
  users : List User
  messages : List Message
  follows : List (Nat × Nat)
  likes : List Like
  deriving DecidableEq

/-- Outcome of a request handler: a redirect, a flash notice plus redirect or
re-rendered template, a 404, or an uncaught Python exception
(`session[CURR_USER_KEY]` on a missing key raises KeyError;
`g.user.id` with `g.user = None` raises AttributeError;
`db.session.delete(None)` raises an unmapped-instance error, `storeError`). -/
inductive Outcome where
  | redirect (url : String)
  | flashRedirect (msg url : String)
  | flashRender (msg template : String)
  | httpNotFound
  | keyError
  | attributeError
  | storeError
  deriving DecidableEq

/-- `add_user_to_g` (app.py line 32): resolve `g.user` from the session;
`None` when logged out or when the stored id no longer resolves. -/
def gUser (st : Store) (sess : Option Nat) : Option User :=
  match sess with
  | none => none
  | some uid => st.users.find? (fun u => u.id = uid)

/-- `do_logout` (app.py line 49): delete the session key if present. -/
def do_logout (sess : Option Nat) : Option Nat :=
  match sess with
  | some _ => none
  | none => none

/-- Ordering used by `order_by(Message.timestamp.desc())`: timestamp
descending. -/
def msgGe (a b : Message) : Prop :=
  b.timestamp ≤ a.timestamp

instance : DecidableRel msgGe :=
  fun a b => Nat.decLe b.timestamp a.timestamp

instance : IsTotal Message msgGe :=
  ⟨fun a b => Nat.le_total b.timestamp a.timestamp⟩

instance : IsTrans Message msgGe :=
  ⟨fun _ _ _ h1 h2 => Nat.le_trans h2 h1⟩

/-- Ids of the users followed by `uid` (`g.user.following`, read from the
follows table in row order). -/
def followingIds (st : Store) (uid : Nat) : List Nat :=
  (st.follows.filter (fun p => p.1 = uid)).map (fun p => p.2)

/-- The timeline query of `homepage` (app.py lines 333-338): messages whose
owner is a followee, timestamp descending, limited to 100. -/
def homepage_messages (st : Store) (uid : Nat) : List Message :=
  (List.insertionSort msgGe
    (st.messages.filter (fun m => m.user_id ∈ followingIds st uid))).take 100

/-- Result of the homepage route: anonymous page, or the timeline page with
the viewer's liked-message ids and their count. -/
inductive HomeResult where
  | anon
  | page (messages : List Message) (likes_ids : List Nat) (num_likes : Nat)
  deriving DecidableEq

/-- `homepage` (app.py line 319). -/
def homepage (st : Store) (sess : Option Nat) : HomeResult :=
  match gUser st sess with
  | some u =>
    let likedIds := (st.likes.filter (fun l => l.user_id = u.id)).map
      (fun l => l.message_id)
    .page (homepage_messages st u.id) likedIds likedIds.length
  | none => .anon

/-- Result of `users_show`: 404, an AttributeError crash (anonymous viewer),
or the rendered profile page payload. -/
inductive ShowResult where
  | notFound
  | attributeError
  | page (messages : List Message) (num_likes : Nat)
  deriving DecidableEq

/-- `users_show` (app.py line 107): `get_or_404` on the path id, the owner's
messages timestamp-descending limited to 100, then
`Likes.query.filter(Likes.user_id == g.user.id)` — dereferencing `g.user`
without a login check. -/
def users_show (st : Store) (sess : Option Nat) (user_id : Nat) : ShowResult :=
  match st.users.find? (fun u => u.id = user_id) with
  | none => .notFound
  | some _ =>
    let messages := (List.insertionSort msgGe
      (st.messages.filter (fun m => m.user_id = user_id))).take 100
    match gUser st sess with
    | none => .attributeError
    | some gu =>
      let likedIds := (st.likes.filter (fun l => l.user_id = gu.id)).map
        (fun l => l.message_id)
      .page messages likedIds.length

/-- Result of `user_likes`: unauthorized redirect, 404, or the page with the
liked messages. -/
inductive LikesResult where
  | unauthorizedRedirect
  | notFound
  | page (liked_messages : List Message)
  deriving DecidableEq

/-- `user_likes` (app.py line 156): auth gate, `get_or_404` on the path id,
then the messages whose id is in the VIEWER's (`g.user`) like set, timestamp
descending. -/
def user_likes (st : Store) (sess : Option Nat) (user_id : Nat) : LikesResult :=
  match gUser st sess with
  | none => .unauthorizedRedirect
  | some gu =>
    match st.users.find? (fun u => u.id = user_id) with
    | none => .notFound
    | some _ =>
      let likedIds := (st.likes.filter (fun l => l.user_id = gu.id)).map
        (fun l => l.message_id)
      .page (List.insertionSort msgGe
        (st.messages.filter (fun m => m.id ∈ likedIds)))

/-- `Likes.query.filter(Likes.message_id == m).first()` followed by
`db.session.delete(...)`: remove the first like row on message `m`,
whoever its owner is. -/
def deleteFirstLikeOnMessage (likes : List Like) (m : Nat) : List Like :=
  match likes with
  | [] => []
  | l :: rest =>
    if l.message_id = m then rest else l :: deleteFirstLikeOnMessage rest m

/-- `add_like` (app.py line 528).  The existence check scans ALL likes for
the message id; the unlike branch deletes the first like on the message by
any user, commits, then builds the redirect URL from `g.user.id` (an
AttributeError after the commit when anonymous); the like branch reads
`session[CURR_USER_KEY]` (KeyError when anonymous) and inserts
(current user, message). -/
def add_like (st : Store) (sess : Option Nat) (message_id : Nat) :
    Store × Outcome :=
  let list_of_liked_message_ids := st.likes.map (fun l => l.message_id)
  if message_id ∈ list_of_liked_message_ids then
    let st' := { st with likes := deleteFirstLikeOnMessage st.likes message_id }
    match gUser st sess with
    | some u => (st', .redirect ("/users/" ++ toString u.id ++ "/likes"))
    | none => (st', .attributeError)
  else
    match sess with
    | none => (st, .keyError)
    | some uid =>
      match st.users.find? (fun u => u.id = uid) with
      | none => (st, .httpNotFound)
      | some user =>
        ({ st with
            likes := st.likes ++ [{ user_id := user.id, message_id := message_id }] },
          .redirect "/")

/-- `messages_destroy` (app.py line 300): auth gate (logged-in check only,
no ownership check), `Message.query.get`, delete, commit, redirect to the
requester's profile. -/
def messages_destroy (st : Store) (sess : Option Nat) (message_id : Nat) :
    Store × Outcome :=
  match gUser st sess with
  | none => (st, .flashRedirect "Access unauthorized." "/")
  | some u =>
    match st.messages.find? (fun m => m.id = message_id) with
    | none => (st, .storeError)
    | some _ =>
      ({ st with messages := st.messages.filter (fun m => ¬ m.id = message_id) },
        .redirect ("/users/" ++ toString u.id))

/-- `delete_user` (app.py line 213): auth gate, delete all of the current
user's messages, COMMIT, delete the user record, COMMIT, log out, redirect
to signup.  Returns (final store, new session, outcome). -/
def delete_user (st : Store) (sess : Option Nat) :
    Store × Option Nat × Outcome :=
  match gUser st sess with
  | none => (st, sess, .flashRedirect "Access unauthorized." "/")
  | some u =>
    let st1 := { st with messages := st.messages.filter (fun m => ¬ m.user_id = u.id) }
    let st2 := { st1 with users := st1.users.filter (fun x => ¬ x.id = u.id) }
    (st2, do_logout sess, .redirect "/signup")

/-- The stores persisted by each `db.session.commit()` of `delete_user`, in
order: app.py commits the message deletions (line 228) and the user deletion
(line 231) as two separate transactions. -/
def delete_user_commits (st : Store) (sess : Option Nat) : List Store :=
  match gUser st sess with
  | none => []
  | some u =>
    let st1 := { st with messages := st.messages.filter (fun m => ¬ m.user_id = u.id) }
    let st2 := { st1 with users := st1.users.filter (fun x => ¬ x.id = u.id) }
    [st1, st2]

/-- Next generated user id. -/
def freshUserId (st : Store) : Nat :=
  (st.users.map (fun u => u.id)).foldr max 0 + 1

/-- Modelled from the spec: `User.signup` (models.py, not under src/) inserts
a new user whose password is stored hashed; the store-level unique
constraints on username and email make the commit raise IntegrityError when
either already exists. -/
def signupCommitConflicts (st : Store) (username email : String) : Bool :=
  st.users.any (fun u => u.username = username || u.email = email)

/-- `signup` (app.py line 437): try `User.signup` + commit; on IntegrityError
flash "Username already taken" and re-render the signup form (no login);
otherwise `do_login` the new user and redirect home.
Returns (store, session, outcome). -/
def signup (st : Store) (sess : Option Nat)
    (username password email image_url : String) :
    Store × Option Nat × Outcome :=
  if signupCommitConflicts st username email then
    (st, sess, .flashRender "Username already taken" "users/signup.html")
  else
    let newUser : User :=
      { id := freshUserId st, username := username, email := email,
        password := password, image_url := image_url,
        header_image_url := "", bio := "", location := "" }
    ({ st with users := st.users ++ [newUser] }, some newUser.id, .redirect "/")

/-- Modelled from the spec: `User.authenticate` (models.py, not under src/)
returns the matching user when the stored credential verifies, else no
match; hash verification is modelled as string equality. -/
def authenticate (st : Store) (username password : String) : Option User :=
  st.users.find? (fun u => u.username = username && u.password = password)

/-- The profile-edit form fields. -/
structure ProfileForm where
  username : String
  email : String
  image_url : String
  header_image_url : String
  location : String
  bio : String
  password : String
  deriving DecidableEq

/-- `update_profile` (app.py line 503): reads `session[CURR_USER_KEY]`
directly (KeyError when anonymous), `get_or_404`, re-authenticates with the
original username and the submitted password, applies the new fields on
success, else flashes and redirects home. -/
def update_profile (st : Store) (sess : Option Nat) (form : ProfileForm) :
    Store × Outcome :=
  match sess with
  | none => (st, .keyError)
  | some uid =>
    match st.users.find? (fun u => u.id = uid) with
    | none => (st, .httpNotFound)
    | some user =>
      match authenticate st user.username form.password with
      | some confirmed =>
        let updated := { confirmed with
          username := form.username, email := form.email,
          image_url := form.image_url,
          header_image_url := form.header_image_url,
          location := form.location, bio := form.bio }
        ({ st with users :=
            st.users.map (fun u => if u.id = confirmed.id then updated else u) },
          .redirect ("/users/" ++ toString confirmed.id))
      | none => (st, .flashRedirect "Wrong password !!" "/")

/-- `logout` (app.py line 381): reads `session[CURR_USER_KEY]` directly
(KeyError when no session), `get_or_404` on that id, then `do_logout`,
flash goodbye, redirect to login.  Returns (new session, outcome). -/
def logout (st : Store) (sess : Option Nat) : Option Nat × Outcome :=
  match sess with
  | none => (sess, .keyError)
  | some uid =>
    match st.users.find? (fun u => u.id = uid) with
    | none => (sess, .httpNotFound)
    | some u =>
      (do_logout sess, .flashRedirect ("Goodbye, " ++ u.username ++ "!") "/login")

/-- A user record with given id and name, other fields defaulted, for
concrete test stores. -/
def mkUser (i : Nat) (n : String) : User :=
  { id := i, username := n, email := n, password := n, image_url := "",
    header_image_url := "", bio := "", location := "" }

/-- A message record with given id, owner and timestamp, for concrete test
stores. -/
def mkMsg (i uid ts : Nat) : Message :=
  { id := i, text := "t", timestamp := ts, user_id := uid }

/-- C1: the like toggle is NOT scoped to the (user, message) pair.  With the
likes table holding only the edge (user 2, message 5), user 1's first
add_like on message 5 is claimed to insert the edge (1, 5); instead the
code's existence check (all likes, message id only) fires and the unlike
branch deletes user 2's edge, leaving the likes table empty. -/
theorem C1_add_like_not_pair_scoped :
    add_like ⟨[mkUser 1 "a", mkUser 2 "b"], [mkMsg 5 2 10], [], [⟨2, 5⟩]⟩
        (some 1) 5 =
      (⟨[mkUser 1 "a", mkUser 2 "b"], [mkMsg 5 2 10], [], []⟩,
        Outcome.redirect "/users/1/likes") := by
  rfl

/-- C2: messages_destroy has no ownership check.  Message 1 is owned by
user 1, yet user 2 (authenticated, not the owner) deletes it successfully
and is redirected to their own profile, instead of the claimed Unauthorized
failure with the message kept. -/
theorem C2_messages_destroy_no_owner_check :
    messages_destroy ⟨[mkUser 1 "a", mkUser 2 "b"], [mkMsg 1 1 10], [], []⟩
        (some 2) 1 =
      (⟨[mkUser 1 "a", mkUser 2 "b"], [], [], []⟩,
        Outcome.redirect "/users/2") := by
  rfl

/-- C3: not every mutating operation is guarded by the auth gate.  An
anonymous add_like on a message that has a like commits the deletion of that
like and then crashes with an AttributeError (no Unauthorized notice, store
changed); an anonymous update_profile raises a KeyError on
session[CURR_USER_KEY] instead of flashing a notice and redirecting. -/
theorem C3_unauthenticated_mutation_not_guarded :
    add_like ⟨[mkUser 1 "a"], [mkMsg 5 1 10], [], [⟨1, 5⟩]⟩ none 5 =
      (⟨[mkUser 1 "a"], [mkMsg 5 1 10], [], []⟩, Outcome.attributeError) ∧
    update_profile ⟨[mkUser 1 "a"], [mkMsg 5 1 10], [], [⟨1, 5⟩]⟩ none
        ⟨"x", "x", "", "", "", "", "p"⟩ =
      (⟨[mkUser 1 "a"], [mkMsg 5 1 10], [], [⟨1, 5⟩]⟩, Outcome.keyError) := by
  exact ⟨rfl, rfl⟩

/-- C6: delete_user persists its cascade in TWO separate commits.  For
user 1 owning message 1, the first committed store already has the message
deleted while the user record still persists — exactly the intermediate
state the commit-or-nothing claim forbids from ever being persisted. -/
theorem C6_delete_user_two_commits :
    delete_user_commits ⟨[mkUser 1 "a"], [mkMsg 1 1 10], [], []⟩ (some 1) =
      [⟨[mkUser 1 "a"], [], [], []⟩, ⟨[], [], [], []⟩] := by
  rfl

/-- C8: users_show dereferences the absent current user.  With user 1
existing, an anonymous GET /users/1 reaches
`Likes.query.filter(Likes.user_id == g.user.id)` with `g.user = None` and
crashes with an AttributeError instead of rendering the profile. -/
theorem C8_users_show_anonymous_crash :
    users_show ⟨[mkUser 1 "a"], [], [], []⟩ none 1 = ShowResult.attributeError := by
  rfl

/-- C9 counterexample: the GET /logout route with no session present does
not succeed — `session[CURR_USER_KEY]` raises a KeyError before do_logout
is ever reached. -/
theorem C9_logout_route_no_session_fails :
    logout ⟨[], [], [], []⟩ none = (none, Outcome.keyError) := by
  rfl

/-- C9 (amended): the session-clearing operation do_logout leaves the
session cleared and is idempotent, succeeding even when already logged out;
the /logout ROUTE, however, fails with a KeyError whenever no session is
present (for any store), leaving the session as it was. -/
theorem C9_do_logout_idempotent :
    do_logout none = none ∧
    (∀ s : Option Nat, do_logout (do_logout s) = do_logout s) ∧
    (∀ st : Store, logout st none = (none, Outcome.keyError)) := by
  refine ⟨rfl, fun s => ?_, fun st => rfl⟩
  cases s <;> rfl

/-- C5: delete_user removes all of the authenticated user's messages and
only those; afterwards looking the deleted user id up in the user table
fails (find? returns none, the NotFound outcome of get). -/
theorem C5_delete_user_cascade (st : Store) (uid : Nat) (u : User)
    (h : gUser st (some uid) = some u) :
    (∀ m ∈ (delete_user st (some uid)).1.messages, m.user_id ≠ uid) ∧
    (∀ m ∈ st.messages, m.user_id ≠ uid → m ∈ (delete_user st (some uid)).1.messages) ∧
    (delete_user st (some uid)).1.users.find? (fun x => x.id = uid) = none := by
  have hid : u.id = uid := by
    have hs := List.find?_some (by simpa [gUser] using h)
    exact of_decide_eq_true hs
  have hd : (delete_user st (some uid)).1 =
      { st with
        messages := st.messages.filter (fun m => ¬ m.user_id = u.id),
        users := st.users.filter (fun x => ¬ x.id = u.id) } := by
    simp [delete_user, h]
  rw [hd]
  refine ⟨?_, ?_, ?_⟩
  · intro m hm
    have := (List.mem_filter.mp hm).2
    simpa [hid] using this
  · intro m hm hne
    exact List.mem_filter.mpr ⟨hm, by simpa [hid] using hne⟩
  · rw [List.find?_eq_none]
    intro x hx
    have := (List.mem_filter.mp hx).2
    simpa [hid] using this

/-- C5 witness: in a store with users 1 and 2 and one message each,
deleting user 1 keeps no message of user 1, keeps user 2's message, and
user 1 no longer resolves. -/
theorem C5_delete_user_cascade_witness :
    (∀ m ∈ (delete_user ⟨[mkUser 1 "a", mkUser 2 "b"],
        [mkMsg 1 1 10, mkMsg 2 2 20], [], []⟩ (some 1)).1.messages,
      m.user_id ≠ 1) ∧
    (∀ m ∈ ([mkMsg 1 1 10, mkMsg 2 2 20] : List Message), m.user_id ≠ 1 →
      m ∈ (delete_user ⟨[mkUser 1 "a", mkUser 2 "b"],
        [mkMsg 1 1 10, mkMsg 2 2 20], [], []⟩ (some 1)).1.messages) ∧
    (delete_user ⟨[mkUser 1 "a", mkUser 2 "b"],
        [mkMsg 1 1 10, mkMsg 2 2 20], [], []⟩ (some 1)).1.users.find?
      (fun x => x.id = 1) = none :=
  C5_delete_user_cascade
    ⟨[mkUser 1 "a", mkUser 2 "b"], [mkMsg 1 1 10, mkMsg 2 2 20], [], []⟩
    1 (mkUser 1 "a") (by rfl)

/-- C7: signing up with an already-taken username leaves the store and the
session exactly as they were and re-renders the signup form with the
duplicate-identity notice; no login happens and no user row is added. -/
theorem C7_signup_duplicate_username (st : Store) (sess : Option Nat)
    (username password email image_url : String)
    (h : ∃ u ∈ st.users, u.username = username) :
    signup st sess username password email image_url =
      (st, sess, Outcome.flashRender "Username already taken" "users/signup.html") := by
  obtain ⟨u, hu, hname⟩ := h
  have hc : signupCommitConflicts st username email = true := by
    apply List.any_eq_true.mpr
    exact ⟨u, hu, by simp [hname]⟩
  simp [signup, hc]

/-- C7 witness: with user "a" present, a second signup as "a" (different
email) changes nothing and redisplays the form. -/
theorem C7_signup_duplicate_username_witness :
    signup ⟨[mkUser 1 "a"], [], [], []⟩ none "a" "pw" "other" "" =
      (⟨[mkUser 1 "a"], [], [], []⟩, none,
        Outcome.flashRender "Username already taken" "users/signup.html") :=
  C7_signup_duplicate_username ⟨[mkUser 1 "a"], [], [], []⟩ none
    "a" "pw" "other" "" ⟨mkUser 1 "a", by simp [mkUser]⟩

/-- C4: for an authenticated viewer whose followee list is exactly [A, B],
the homepage renders the timeline query, every rendered message is owned by
A or B (the viewer's own messages are not included unless the viewer is A or
B), the page holds at most 100 messages, and — timestamps being pairwise
distinct — they are strictly descending by timestamp. -/
theorem C4_homepage_timeline (st : Store) (sess : Option Nat) (u : User) (A B : Nat)
    (hu : gUser st sess = some u)
    (hF : followingIds st u.id = [A, B])
    (hT : st.messages.Pairwise (fun a b => a.timestamp ≠ b.timestamp)) :
    (∃ ids n, homepage st sess = HomeResult.page (homepage_messages st u.id) ids n) ∧
    (∀ m ∈ homepage_messages st u.id, m.user_id = A ∨ m.user_id = B) ∧
    (homepage_messages st u.id).length ≤ 100 ∧
    List.Pairwise (fun a b => b.timestamp < a.timestamp) (homepage_messages st u.id) := by
  refine ⟨⟨(st.likes.filter (fun l => l.user_id = u.id)).map (fun l => l.message_id),
    ((st.likes.filter (fun l => l.user_id = u.id)).map (fun l => l.message_id)).length,
    by simp only [homepage, hu]⟩, ?_, ?_, ?_⟩
  · intro m hm
    simp only [homepage_messages] at hm
    have hm1 : m ∈ List.insertionSort msgGe
        (st.messages.filter (fun x => x.user_id ∈ followingIds st u.id)) :=
      List.take_subset _ _ hm
    have hm2 : m ∈ st.messages.filter (fun x => x.user_id ∈ followingIds st u.id) :=
      (List.mem_insertionSort msgGe).mp hm1
    have hmem := (List.mem_filter.mp hm2).2
    rw [hF] at hmem
    simpa using of_decide_eq_true hmem
  · simp only [homepage_messages]
    exact List.length_take_le 100 _
  · simp only [homepage_messages]
    have hfl : (st.messages.filter
        (fun x => x.user_id ∈ followingIds st u.id)).Pairwise
        (fun a b => a.timestamp ≠ b.timestamp) :=
      hT.sublist (List.filter_sublist _)
    have hperm := List.perm_insertionSort msgGe
      (st.messages.filter (fun x => x.user_id ∈ followingIds st u.id))
    have hone : (List.insertionSort msgGe (st.messages.filter
        (fun x => x.user_id ∈ followingIds st u.id))).Pairwise
        (fun a b => a.timestamp ≠ b.timestamp) :=
      (hperm.pairwise_iff (fun h => h.symm)).mpr hfl
    have hsorted : List.Sorted msgGe (List.insertionSort msgGe
        (st.messages.filter (fun x => x.user_id ∈ followingIds st u.id))) :=
      List.sorted_insertionSort msgGe _
    have hstrict := (hsorted.and hone).imp
      (fun h => Nat.lt_of_le_of_ne h.1 h.2.symm)
    exact hstrict.sublist (List.take_sublist 100 _)

/-- C4 witness: viewer 1 follows users 2 and 3; the timeline over messages
of users 2, 3, 4 (distinct timestamps) satisfies the three properties. -/
theorem C4_homepage_timeline_witness :
    (∃ ids n,
      homepage ⟨[mkUser 1 "a"], [mkMsg 1 2 10, mkMsg 2 3 30, mkMsg 3 4 20],
          [(1, 2), (1, 3)], []⟩ (some 1) =
        HomeResult.page
          (homepage_messages ⟨[mkUser 1 "a"],
            [mkMsg 1 2 10, mkMsg 2 3 30, mkMsg 3 4 20], [(1, 2), (1, 3)], []⟩ 1)
          ids n) ∧
    (∀ m ∈ homepage_messages ⟨[mkUser 1 "a"],
        [mkMsg 1 2 10, mkMsg 2 3 30, mkMsg 3 4 20], [(1, 2), (1, 3)], []⟩ 1,
      m.user_id = 2 ∨ m.user_id = 3) ∧
    (homepage_messages ⟨[mkUser 1 "a"],
        [mkMsg 1 2 10, mkMsg 2 3 30, mkMsg 3 4 20], [(1, 2), (1, 3)], []⟩ 1).length ≤ 100 ∧
    List.Pairwise (fun a b => b.timestamp < a.timestamp)
      (homepage_messages ⟨[mkUser 1 "a"],
        [mkMsg 1 2 10, mkMsg 2 3 30, mkMsg 3 4 20], [(1, 2), (1, 3)], []⟩ 1) :=
  C4_homepage_timeline
    ⟨[mkUser 1 "a"], [mkMsg 1 2 10, mkMsg 2 3 30, mkMsg 3 4 20],
      [(1, 2), (1, 3)], []⟩
    (some 1) (mkUser 1 "a") 2 3 (by rfl) (by rfl) (by decide)

/-- C10: the like data rendered on a profile comes from the logged-in
VIEWER's like set, not from the likes of the path user: the users_show like
count equals the size of the viewer's like set (for any path id), and the
user_likes page is identical for any two existing path ids. -/
theorem C10_likes_from_viewer (st : Store) (sess : Option Nat) (v : User)
    (p1 p2 : Nat)
    (hv : gUser st sess = some v)
    (h1 : (st.users.find? (fun u => u.id = p1)).isSome = true)
    (h2 : (st.users.find? (fun u => u.id = p2)).isSome = true) :
    (∃ ms, users_show st sess p1 =
        ShowResult.page ms ((st.likes.filter (fun l => l.user_id = v.id)).length)) ∧
    user_likes st sess p1 = user_likes st sess p2 := by
  obtain ⟨w1, hw1⟩ := Option.isSome_iff_exists.mp h1
  obtain ⟨w2, hw2⟩ := Option.isSome_iff_exists.mp h2
  constructor
  · refine ⟨(List.insertionSort msgGe
      (st.messages.filter (fun m => m.user_id = p1))).take 100, ?_⟩
    simp only [users_show, hw1, hv, List.length_map]
  · simp [user_likes, hv, hw1, hw2]

/-- C10 witness: viewer 1 likes message 7 (owned by user 2); on the
profiles of users 1 and 2 alike, the rendered like count is 1 (the size of
the viewer's like set) and the likes page is the same. -/
theorem C10_likes_from_viewer_witness :
    (∃ ms, users_show ⟨[mkUser 1 "a", mkUser 2 "b"], [mkMsg 7 2 5], [],
        [⟨1, 7⟩]⟩ (some 1) 1 =
      ShowResult.page ms
        ((Store.likes ⟨[mkUser 1 "a", mkUser 2 "b"], [mkMsg 7 2 5], [], [⟨1, 7⟩]⟩).filter
          (fun l => l.user_id = (mkUser 1 "a").id)).length) ∧
    user_likes ⟨[mkUser 1 "a", mkUser 2 "b"], [mkMsg 7 2 5], [], [⟨1, 7⟩]⟩
        (some 1) 1 =
      user_likes ⟨[mkUser 1 "a", mkUser 2 "b"], [mkMsg 7 2 5], [], [⟨1, 7⟩]⟩
        (some 1) 2 :=
  C10_likes_from_viewer
    ⟨[mkUser 1 "a", mkUser 2 "b"], [mkMsg 7 2 5], [], [⟨1, 7⟩]⟩
    (some 1) (mkUser 1 "a") 1 2 (by rfl) (by rfl) (by rfl)

end Warbler
